import Mathlib

/-!
Verification of the GitHub metrics calculation core
(`github_metrics/metrics.py`, `github_metrics/collectors.py`).

The pandas data frames are embedded as lists of typed rows.  Rows follow the
schema produced by `GitHubCollector` (`collectors.py`), where every extracted
dictionary always carries the same keys; a value that can be missing in a row
(`None` / `NaT` / `NaN`) is an `Option`.  The one place where a whole *column*
can be absent from a frame — the `is_bug` / `is_incident` issue flags, which no
collector ever emits — is modelled with a second `Option` layer on the field,
mirroring how `pd.DataFrame(list_of_dicts)` only creates a column when at least
one row dictionary carries the key, and how selecting a missing column raises
`KeyError`.  Raising paths are embedded with `Except String`; the
`{"error": ...}` dictionaries that some calculators *return* are a distinct
`Analysis` shape.

Timestamps are seconds since the epoch (`ℤ`); `datetime.now()` is an explicit
`now` argument and `timedelta(days=p)` is `86400 * p` seconds.  Float
statistics are computed in `ℚ`; the Python `round(x, n)` (round half to even) is
`pyRound`, and the mean of an empty series (`NaN` in pandas) is represented by
`0` via the `0 / 0 = 0` convention of `ℚ`.
-/

/-- Round-half-to-even to an integer: the rounding mode of the Python built-in
`round`. -/
def halfEven (x : ℚ) : ℤ :=
  if x - ⌊x⌋ < 1/2 then ⌊x⌋
  else if 1/2 < x - ⌊x⌋ then ⌊x⌋ + 1
  else if ⌊x⌋ % 2 = 0 then ⌊x⌋ else ⌊x⌋ + 1

/-- the Python `round(x, n)` on exact rationals. -/
def pyRound (x : ℚ) (n : ℕ) : ℚ := (halfEven (x * 10 ^ n) : ℚ) / 10 ^ n

/-- Embedding of `pandas.Series.mean` over the list of non-null values of the series
(`0` stands for the `NaN` produced on an empty series). -/
def meanQ (l : List ℚ) : ℚ := l.sum / l.length

/-- Embedding of `pandas.Series.min` (`0` for an empty series). -/
def listMin : List ℚ → ℚ
  | [] => 0
  | x :: xs => xs.foldl min x

/-- Embedding of `pandas.Series.max` (`0` for an empty series). -/
def listMax : List ℚ → ℚ
  | [] => 0
  | x :: xs => xs.foldl max x

/-- The values of a series in ascending order. -/
def sortQ (l : List ℚ) : List ℚ := l.insertionSort (· ≤ ·)

/-- Linear interpolation between the order statistics of a sorted list at
position `pos ∈ [0, n-1]`: the interpolation scheme of
`pandas.Series.quantile(·, interpolation=linear)`. -/
def interpAt (s : List ℚ) (pos : ℚ) : ℚ :=
  let i : ℕ := (⌊pos⌋).toNat
  let lo := s.getD i 0
  let hi := s.getD (i + 1) lo
  lo + (pos - (i : ℚ)) * (hi - lo)

/-- Embedding of `pandas.Series.quantile(q, interpolation=linear)` over the non-null
values `l` of a series. -/
def seriesQuantile (l : List ℚ) (q : ℚ) : ℚ :=
  interpAt (sortQ l) (q * ((l.length : ℚ) - 1))

/-- Embedding of `pandas.Series.median`, which pandas computes as the linearly interpolated
0.5 quantile. -/
def seriesMedian (l : List ℚ) : ℚ := seriesQuantile l (1/2)

/-! ## Row schemas (the dictionaries built by `GitHubCollector`) -/

/-- A row of the deployments frame (`_extract_deployment_data`); only the
fields the metrics layer reads are kept. -/
structure DeploymentRow where
  created_at : Option ℤ
deriving DecidableEq

/-- A row of the pull-request frame: the dictionary shape produced by
`GitHubCollector._extract_pr_data`. -/
structure PRRow where
  id : ℤ
  number : ℤ
  title : String
  state : String
  created_at : Option ℤ
  updated_at : Option ℤ
  closed_at : Option ℤ
  merged_at : Option ℤ
  merged : Bool
  author : Option String
  assignees : List String
  reviewers : List String
  labels : List String
  additions : ℤ
  deletions : ℤ
  changed_files : ℤ
  commits_count : ℕ
  review_comments : ℤ
  issue_comments : ℤ
  total_comments : ℤ
  cycle_time_hours : Option ℚ
  url : String
deriving DecidableEq

/-- A pull-request row with every field at a neutral value; concrete tables in
the theorems below override the fields they care about. -/
def basePR : PRRow :=
  { id := 0, number := 0, title := "", state := "open", created_at := none,
    updated_at := none, closed_at := none, merged_at := none, merged := false,
    author := none, assignees := [], reviewers := [], labels := [],
    additions := 0, deletions := 0, changed_files := 0, commits_count := 0,
    review_comments := 0, issue_comments := 0, total_comments := 0,
    cycle_time_hours := none, url := "" }

/-- A row of the issues frame.  `state`, `created_at` and `closed_at` are keys
of every dictionary `_extract_issue_data` emits, so those columns always
exist; `is_bug` / `is_incident` are *not* produced by any collector, so their
outer `Option` records whether the key is present in the row dictionary at
all (the column exists in the frame iff some row carries the key). -/
structure IssueRow where
  state : String
  created_at : Option ℤ
  closed_at : Option ℤ
  is_bug : Option (Option Bool)
  is_incident : Option (Option Bool)
deriving DecidableEq

/-- A row of the commits frame as the `ProductivityMetrics` code reads it
(`author` and `date` columns; the per-commit stats). -/
structure CommitRow where
  sha : String
  author : Option String
  date : Option ℤ
  additions : ℤ
  deletions : ℤ
  total_changes : ℤ
  files_changed : ℤ
deriving DecidableEq

/-- Embedding of `start_date <= t <= end_date` for `start_date = now - period_days` days:
the boolean mask used by the period filters.  A missing timestamp (`NaT`)
compares false on both sides, as in pandas. -/
def inPeriod (now period_days : ℤ) (t : Option ℤ) : Bool :=
  match t with
  | none => false
  | some ts => decide (now - 86400 * period_days ≤ ts) && decide (ts ≤ now)

/-! ## DORA calculator (`DORAMetrics`) -/

/-- Return shape of `DORAMetrics.deployment_frequency`. -/
structure DFResult where
  deployments_per_day : ℚ
  deployments_per_week : ℚ
  total_deployments : ℕ
  period_days : ℤ
deriving DecidableEq

/-- Embedding of `DORAMetrics.deployment_frequency` (metrics.py lines 41-77). -/
def deployment_frequency (deployments : List DeploymentRow) (now period_days : ℤ) :
    DFResult :=
  if deployments.isEmpty then
    { deployments_per_day := 0, deployments_per_week := 0,
      total_deployments := 0, period_days := period_days }
  else
    let period_deployments :=
      deployments.filter (fun d => inPeriod now period_days d.created_at)
    let total_deployments := period_deployments.length
    let deployments_per_day : ℚ :=
      if period_days > 0 then (total_deployments : ℚ) / (period_days : ℚ) else 0
    let deployments_per_week := deployments_per_day * 7
    { deployments_per_day := pyRound deployments_per_day 2,
      deployments_per_week := pyRound deployments_per_week 2,
      total_deployments := total_deployments, period_days := period_days }

/-- Return shape of `DORAMetrics.lead_time_for_changes`. -/
structure LTResult where
  mean_lead_time_hours : ℚ
  median_lead_time_hours : ℚ
  p95_lead_time_hours : ℚ
  total_merged_prs : ℕ
deriving DecidableEq

/-- The boolean mask `(merged == True) & (cycle_time_hours.notna())`. -/
def mergedPRs (prs : List PRRow) : List PRRow :=
  prs.filter (fun pr => pr.merged && pr.cycle_time_hours.isSome)

/-- The `cycle_time_hours` column of the filtered frame. -/
def leadTimes (prs : List PRRow) : List ℚ :=
  (mergedPRs prs).filterMap (fun pr => pr.cycle_time_hours)

/-- Embedding of `DORAMetrics.lead_time_for_changes` (metrics.py lines 79-116). -/
def lead_time_for_changes (prs : List PRRow) : LTResult :=
  if prs.isEmpty then
    { mean_lead_time_hours := 0, median_lead_time_hours := 0,
      p95_lead_time_hours := 0, total_merged_prs := 0 }
  else
    let merged_prs := mergedPRs prs
    if merged_prs.isEmpty then
      { mean_lead_time_hours := 0, median_lead_time_hours := 0,
        p95_lead_time_hours := 0, total_merged_prs := 0 }
    else
      let lead_times := merged_prs.filterMap (fun pr => pr.cycle_time_hours)
      { mean_lead_time_hours := pyRound (meanQ lead_times) 2,
        median_lead_time_hours := pyRound (seriesMedian lead_times) 2,
        p95_lead_time_hours := pyRound (seriesQuantile lead_times (19/20)) 2,
        total_merged_prs := merged_prs.length }

/-- Return shape of `DORAMetrics.mean_time_to_recovery`. -/
structure MTTRResult where
  mean_recovery_time_hours : ℚ
  median_recovery_time_hours : ℚ
  total_incidents : ℕ
deriving DecidableEq

/-- Whether the frame built from `issues` has a column: at least one row
dictionary carries the key. -/
def issuesHaveCol (issues : List IssueRow) (key : IssueRow → Option (Option Bool)) :
    Bool :=
  issues.any (fun r => (key r).isSome)

/-- The row mask of the incident filter in `mean_time_to_recovery`:
`(state == "closed") & ((is_bug == True) | (is_incident == True))
& created_at.notna() & closed_at.notna()`.  A missing or null flag compares
false against `True`, as `NaN == True` does in pandas. -/
def isRecoveryIncident (r : IssueRow) : Bool :=
  (r.state == "closed") &&
    ((r.is_bug.join == some true) || (r.is_incident.join == some true)) &&
    r.created_at.isSome && r.closed_at.isSome

/-- Embedding of `DORAMetrics.mean_time_to_recovery` (metrics.py lines 118-157).  Selecting
the `is_bug` / `is_incident` columns raises `KeyError` when no row of the
(non-empty) frame carries the key; the columns of the mask are evaluated left
to right, so `is_bug` is the first flag looked up. -/
def mean_time_to_recovery (issues : List IssueRow) : Except String MTTRResult :=
  if issues.isEmpty then
    Except.ok { mean_recovery_time_hours := 0, median_recovery_time_hours := 0,
                total_incidents := 0 }
  else if !issuesHaveCol issues (fun r => r.is_bug) then
    Except.error "KeyError: is_bug"
  else if !issuesHaveCol issues (fun r => r.is_incident) then
    Except.error "KeyError: is_incident"
  else
    let incidents := issues.filter isRecoveryIncident
    if incidents.isEmpty then
      Except.ok { mean_recovery_time_hours := 0, median_recovery_time_hours := 0,
                  total_incidents := 0 }
    else
      let recovery_times := incidents.filterMap (fun r =>
        match r.closed_at, r.created_at with
        | some cl, some cr => some (((cl - cr : ℤ) : ℚ) / 3600)
        | _, _ => none)
      Except.ok
        { mean_recovery_time_hours := pyRound (meanQ recovery_times) 2,
          median_recovery_time_hours := pyRound (seriesMedian recovery_times) 2,
          total_incidents := incidents.length }

/-- Return shape of `DORAMetrics.change_failure_rate`. -/
structure CFRResult where
  change_failure_rate : ℚ
  total_deployments : ℕ
  total_bugs : ℕ
  period_days : ℤ
deriving DecidableEq

/-- Embedding of `DORAMetrics.change_failure_rate` (metrics.py lines 159-205).  On a
non-empty issues frame the mask reads the `created_at` column (always
present) and then the `is_bug` column, which raises `KeyError` when absent. -/
def change_failure_rate (deployments : List DeploymentRow) (issues : List IssueRow)
    (now period_days : ℤ) : Except String CFRResult :=
  let total_deployments :=
    if deployments.isEmpty then 0
    else (deployments.filter (fun d => inPeriod now period_days d.created_at)).length
  let bugsE : Except String ℕ :=
    if issues.isEmpty then Except.ok 0
    else if !issuesHaveCol issues (fun r => r.is_bug) then
      Except.error "KeyError: is_bug"
    else
      Except.ok ((issues.filter (fun i =>
        inPeriod now period_days i.created_at && (i.is_bug.join == some true))).length)
  match bugsE with
  | Except.error e => Except.error e
  | Except.ok total_bugs =>
      let failure_rate : ℚ :=
        if total_deployments > 0 then (total_bugs : ℚ) / (total_deployments : ℚ)
        else 0
      Except.ok
        { change_failure_rate := pyRound failure_rate 3,
          total_deployments := total_deployments, total_bugs := total_bugs,
          period_days := period_days }

/-- Return shape of `DORAMetrics.get_all_dora_metrics`. -/
structure AllDora where
  deployment_frequency : DFResult
  lead_time_for_changes : LTResult
  mean_time_to_recovery : MTTRResult
  change_failure_rate : CFRResult
  calculated_at : String
  period_days : ℤ
deriving DecidableEq

/-- Embedding of `DORAMetrics.get_all_dora_metrics` (metrics.py lines 207-216); the
`datetime.now().isoformat()` stamp is the explicit `calculated_at`
argument. -/
def get_all_dora_metrics (deployments : List DeploymentRow) (prs : List PRRow)
    (issues : List IssueRow) (now period_days : ℤ) (calculated_at : String) :
    Except String AllDora := do
  let mttr ← mean_time_to_recovery issues
  let cfr ← change_failure_rate deployments issues now period_days
  pure { deployment_frequency := deployment_frequency deployments now period_days,
         lead_time_for_changes := lead_time_for_changes prs,
         mean_time_to_recovery := mttr, change_failure_rate := cfr,
         calculated_at := calculated_at, period_days := period_days }

/-- Forget the `calculated_at` stamp of a DORA report. -/
def eraseDoraStamp (r : AllDora) : AllDora := { r with calculated_at := "" }

/-! ## PR analytics calculator (`PRMetrics`) -/

/-- Outcome of a `PRMetrics` / `ProductivityMetrics` method: either the
`{"error": msg}` dictionary these methods *return* on an empty frame, or the
metrics dictionary. -/
inductive Analysis (α : Type) where
  | errorDict (msg : String)
  | metrics (r : α)
deriving DecidableEq

/-- Return shape of `PRMetrics.cycle_time_analysis`. -/
structure CycleResult where
  mean_cycle_time_hours : ℚ
  median_cycle_time_hours : ℚ
  p75_cycle_time_hours : ℚ
  p95_cycle_time_hours : ℚ
  min_cycle_time_hours : ℚ
  max_cycle_time_hours : ℚ
  total_prs : ℕ
deriving DecidableEq

/-- Embedding of `PRMetrics.cycle_time_analysis` (metrics.py lines 235-256). -/
def cycle_time_analysis (prs : List PRRow) : Analysis CycleResult :=
  if prs.isEmpty then Analysis.errorDict "No PR data available"
  else
    let valid_prs := prs.filter (fun pr => pr.cycle_time_hours.isSome)
    if valid_prs.isEmpty then Analysis.errorDict "No PRs with valid cycle times"
    else
      let cycle_times := valid_prs.filterMap (fun pr => pr.cycle_time_hours)
      Analysis.metrics
        { mean_cycle_time_hours := pyRound (meanQ cycle_times) 2,
          median_cycle_time_hours := pyRound (seriesMedian cycle_times) 2,
          p75_cycle_time_hours := pyRound (seriesQuantile cycle_times (3/4)) 2,
          p95_cycle_time_hours := pyRound (seriesQuantile cycle_times (19/20)) 2,
          min_cycle_time_hours := pyRound (listMin cycle_times) 2,
          max_cycle_time_hours := pyRound (listMax cycle_times) 2,
          total_prs := valid_prs.length }

/-- Return shape of `PRMetrics.review_analysis`. -/
structure ReviewResult where
  mean_review_comments : ℚ
  median_review_comments : ℚ
  mean_total_comments : ℚ
  median_total_comments : ℚ
  mean_pr_size : ℚ
  median_pr_size : ℚ
  prs_with_no_reviews : ℕ
  total_prs : ℕ
deriving DecidableEq

/-- Embedding of `PRMetrics.review_analysis` (metrics.py lines 258-279). -/
def review_analysis (prs : List PRRow) : Analysis ReviewResult :=
  if prs.isEmpty then Analysis.errorDict "No PR data available"
  else
    let review_comments := prs.map (fun pr => (pr.review_comments : ℚ))
    let total_comments := prs.map (fun pr => (pr.total_comments : ℚ))
    let pr_sizes := prs.map (fun pr => ((pr.additions + pr.deletions : ℤ) : ℚ))
    Analysis.metrics
      { mean_review_comments := pyRound (meanQ review_comments) 2,
        median_review_comments := pyRound (seriesMedian review_comments) 2,
        mean_total_comments := pyRound (meanQ total_comments) 2,
        median_total_comments := pyRound (seriesMedian total_comments) 2,
        mean_pr_size := pyRound (meanQ pr_sizes) 2,
        median_pr_size := pyRound (seriesMedian pr_sizes) 2,
        prs_with_no_reviews := (prs.filter (fun pr => pr.review_comments == 0)).length,
        total_prs := prs.length }

/-- Return shape of `PRMetrics.merge_analysis`. -/
structure MergeResult where
  total_prs : ℕ
  merged_prs : ℕ
  closed_unmerged_prs : ℕ
  open_prs : ℕ
  merge_rate : ℚ
  rejection_rate : ℚ
deriving DecidableEq

/-- Embedding of `PRMetrics.merge_analysis` (metrics.py lines 281-300). -/
def merge_analysis (prs : List PRRow) : Analysis MergeResult :=
  if prs.isEmpty then Analysis.errorDict "No PR data available"
  else
    let total_prs := prs.length
    let merged_prs := (prs.filter (fun pr => pr.merged)).length
    let closed_unmerged :=
      (prs.filter (fun pr => pr.state == "closed" && pr.merged == false)).length
    let open_prs := (prs.filter (fun pr => pr.state == "open")).length
    Analysis.metrics
      { total_prs := total_prs, merged_prs := merged_prs,
        closed_unmerged_prs := closed_unmerged, open_prs := open_prs,
        merge_rate :=
          if total_prs > 0 then pyRound ((merged_prs : ℚ) / (total_prs : ℚ)) 3 else 0,
        rejection_rate :=
          if total_prs > 0 then pyRound ((closed_unmerged : ℚ) / (total_prs : ℚ)) 3
          else 0 }

/-! ## Productivity calculator (`ProductivityMetrics`) -/

/-- One row of the `groupby("author").agg(...)` frame for commits. -/
structure AuthorCommitStat where
  commits : ℕ
  additions : ℤ
  deletions : ℤ
  total_changes : ℤ
  files_changed : ℤ
deriving DecidableEq

/-- One row of the `groupby("author").agg(...)` frame for pull requests. -/
structure AuthorPRStat where
  prs : ℕ
  additions : ℤ
  deletions : ℤ
  review_comments : ℤ
deriving DecidableEq

/-- The `commit_activity` sub-dictionary of `developer_activity`. -/
structure CommitActivity where
  total_commits : ℕ
  total_authors : ℕ
  mean_commits_per_author : ℚ
  mean_changes_per_commit : ℚ
  top_contributors : List (String × AuthorCommitStat)
deriving DecidableEq

/-- The `pr_activity` sub-dictionary of `developer_activity`. -/
structure PRActivity where
  total_prs : ℕ
  pr_authors : ℕ
  mean_prs_per_author : ℚ
  mean_pr_size : ℚ
  top_pr_contributors : List (String × AuthorPRStat)
deriving DecidableEq

/-- Return shape of `ProductivityMetrics.developer_activity`; the
sub-dictionaries are only present when the corresponding frame is
non-empty. -/
structure DevActivity where
  commit_activity : Option CommitActivity
  pr_activity : Option PRActivity
  period_days : ℤ
  calculated_at : String
deriving DecidableEq

/-- Aggregates of one commit author group. -/
def commitAuthorStat (commits : List CommitRow) (a : String) : AuthorCommitStat :=
  let g := commits.filter (fun c => c.author == some a)
  { commits := g.length,
    additions := (g.map (fun c => c.additions)).sum,
    deletions := (g.map (fun c => c.deletions)).sum,
    total_changes := (g.map (fun c => c.total_changes)).sum,
    files_changed := (g.map (fun c => c.files_changed)).sum }

/-- Aggregates of one PR author group. -/
def prAuthorStat (prs : List PRRow) (a : String) : AuthorPRStat :=
  let g := prs.filter (fun pr => pr.author == some a)
  { prs := g.length,
    additions := (g.map (fun pr => pr.additions)).sum,
    deletions := (g.map (fun pr => pr.deletions)).sum,
    review_comments := (g.map (fun pr => pr.review_comments)).sum }

/-- The group keys of `groupby("author")`: the distinct non-null authors, in
ascending order (pandas sorts group keys and drops null keys). -/
def authorKeys (authors : List (Option String)) : List String :=
  (authors.filterMap id).dedup.insertionSort (· ≤ ·)

/-- Embedding of `ProductivityMetrics.developer_activity` (metrics.py lines 328-384); the
`datetime.now().isoformat()` stamp is the explicit `calculated_at`
argument. -/
def developer_activity (commits : List CommitRow) (prs : List PRRow)
    (now period_days : ℤ) (calculated_at : String) : DevActivity :=
  let commit_activity :=
    if commits.isEmpty then none
    else
      let period_commits := commits.filter (fun c => inPeriod now period_days c.date)
      let keys := authorKeys (period_commits.map (fun c => c.author))
      let author_stats := keys.map (fun a => (a, commitAuthorStat period_commits a))
      some
        { total_commits := period_commits.length,
          total_authors := author_stats.length,
          mean_commits_per_author :=
            pyRound (meanQ (author_stats.map (fun s => (s.2.commits : ℚ)))) 2,
          mean_changes_per_commit :=
            pyRound (meanQ (period_commits.map (fun c => (c.total_changes : ℚ)))) 2,
          top_contributors := author_stats.take 5 }
  let pr_activity :=
    if prs.isEmpty then none
    else
      let period_prs := prs.filter (fun pr => inPeriod now period_days pr.created_at)
      let keys := authorKeys (period_prs.map (fun pr => pr.author))
      let pr_author_stats := keys.map (fun a => (a, prAuthorStat period_prs a))
      some
        { total_prs := period_prs.length,
          pr_authors := pr_author_stats.length,
          mean_prs_per_author :=
            pyRound (meanQ (pr_author_stats.map (fun s => (s.2.prs : ℚ)))) 2,
          mean_pr_size :=
            pyRound (meanQ (period_prs.map
              (fun pr => ((pr.additions + pr.deletions : ℤ) : ℚ)))) 2,
          top_pr_contributors := pr_author_stats.take 5 }
  { commit_activity := commit_activity, pr_activity := pr_activity,
    period_days := period_days, calculated_at := calculated_at }

/-- Forget the `calculated_at` stamp of a `developer_activity` report. -/
def eraseDevStamp (r : DevActivity) : DevActivity := { r with calculated_at := "" }

/-! ### ISO calendar weeks (`Series.dt.isocalendar().week`) -/

/-- Proleptic-Gregorian calendar date (year, month, day) of an epoch day
count (days since 1970-01-01), by the standard civil-from-days algorithm. -/
def civilFromDays (day : ℤ) : ℤ × ℤ × ℤ :=
  let z := day + 719468
  let era := Int.fdiv z 146097
  let doe := z - era * 146097
  let yoe := (doe - doe / 1460 + doe / 36524 - doe / 146096) / 365
  let y := yoe + era * 400
  let doy := doe - (365 * yoe + yoe / 4 - yoe / 100)
  let mp := (5 * doy + 2) / 153
  let d := doy - (153 * mp + 2) / 5 + 1
  let m := mp + (if mp < 10 then 3 else -9)
  (y + (if m ≤ 2 then 1 else 0), m, d)

/-- Epoch day count of a civil date (inverse of `civilFromDays`). -/
def daysFromCivil (y m d : ℤ) : ℤ :=
  let yy := y - (if m ≤ 2 then 1 else 0)
  let era := Int.fdiv yy 400
  let yoe := yy - era * 400
  let doy := (153 * (m + (if m > 2 then -3 else 9)) + 2) / 5 + d - 1
  let doe := yoe * 365 + yoe / 4 - yoe / 100 + doy
  era * 146097 + doe - 719468

/-- The `p(y)` helper of the ISO-week-count rule. -/
def isoP (y : ℤ) : ℤ :=
  (y + Int.fdiv y 4 - Int.fdiv y 100 + Int.fdiv y 400).emod 7

/-- Whether an ISO week-based year has 53 weeks. -/
def isoLongYear (y : ℤ) : Bool :=
  isoP y == 4 || isoP (y - 1) == 3

/-- ISO-8601 week number of an epoch day (the `week` field of
`datetime.date.isocalendar()`). -/
def isoWeekOfDay (day : ℤ) : ℤ :=
  let y := (civilFromDays day).1
  let wd := (day + 3).emod 7 + 1
  let ordinal := day - daysFromCivil y 1 1 + 1
  let w := (ordinal - wd + 10) / 7
  if w < 1 then (if isoLongYear (y - 1) then 53 else 52)
  else if w > 52 then (if isoLongYear y then 53 else 1)
  else w

/-- ISO week number of an epoch timestamp in seconds. -/
def isoWeek (ts : ℤ) : ℤ := isoWeekOfDay (Int.fdiv ts 86400)

/-- One row of the `groupby("week").agg(...)` frame. -/
structure WeeklyStat where
  review_comments : ℚ
  total_comments : ℚ
  cycle_time_hours : ℚ
  additions : ℚ
  deletions : ℚ
  changed_files : ℚ
deriving DecidableEq

/-- The `overall_averages` sub-dictionary of `code_quality_trends`. -/
structure OverallAverages where
  avg_review_comments : ℚ
  avg_cycle_time : ℚ
  avg_pr_size : ℚ
deriving DecidableEq

/-- Return shape of `ProductivityMetrics.code_quality_trends`. -/
structure QualityTrends where
  weekly_trends : List (ℤ × WeeklyStat)
  overall_averages : OverallAverages
deriving DecidableEq

/-- Column means of one week group (`mean` skips null cycle times, as pandas
does). -/
def weeklyStat (group : List PRRow) : WeeklyStat :=
  { review_comments := meanQ (group.map (fun pr => (pr.review_comments : ℚ))),
    total_comments := meanQ (group.map (fun pr => (pr.total_comments : ℚ))),
    cycle_time_hours := meanQ (group.filterMap (fun pr => pr.cycle_time_hours)),
    additions := meanQ (group.map (fun pr => (pr.additions : ℚ))),
    deletions := meanQ (group.map (fun pr => (pr.deletions : ℚ))),
    changed_files := meanQ (group.map (fun pr => (pr.changed_files : ℚ))) }

/-- Embedding of `ProductivityMetrics.code_quality_trends` (metrics.py lines 386-410): PRs
are bucketed by ISO week of `created_at` (rows with a null `created_at` get a
null week key, which `groupby` drops); group keys come out in ascending
order. -/
def code_quality_trends (prs : List PRRow) : Analysis QualityTrends :=
  if prs.isEmpty then Analysis.errorDict "No PR data available"
  else
    let dated := prs.filterMap (fun pr => pr.created_at.map (fun t => (isoWeek t, pr)))
    let weeks := ((dated.map (fun x => x.1)).dedup).insertionSort (· ≤ ·)
    Analysis.metrics
      { weekly_trends := weeks.map (fun w =>
          (w, weeklyStat ((dated.filter (fun x => x.1 == w)).map (fun x => x.2)))),
        overall_averages :=
          { avg_review_comments :=
              pyRound (meanQ (prs.map (fun pr => (pr.review_comments : ℚ)))) 2,
            avg_cycle_time :=
              pyRound (meanQ (prs.filterMap (fun pr => pr.cycle_time_hours))) 2,
            avg_pr_size :=
              pyRound (meanQ (prs.map
                (fun pr => ((pr.additions + pr.deletions : ℤ) : ℚ)))) 2 } }

/-- Return shape of `ProductivityMetrics.collaboration_metrics`. -/
structure CollabResult where
  total_reviewers : ℕ
  most_active_reviewers : List (String × ℕ)
  collaboration_pairs : ℕ
  avg_reviewers_per_pr : ℚ
deriving DecidableEq

/-- Embedding of `pandas.Series.value_counts()`: the distinct values with their counts,
sorted by descending count (stably, so ties keep first-appearance order). -/
def valueCounts (l : List String) : List (String × ℕ) :=
  (l.dedup.map (fun k => (k, l.count k))).insertionSort (fun a b => b.2 ≤ a.2)

/-- The `collaboration_pairs` list built by the loop in
`collaboration_metrics`: one `(author, reviewer)` pair per reviewer of each
PR, skipping reviewers equal to the author. -/
def collabPairs (prs : List PRRow) : List (Option String × String) :=
  (prs.map (fun pr =>
    (pr.reviewers.filter (fun reviewer => !(some reviewer == pr.author))).map
      (fun reviewer => (pr.author, reviewer)))).flatten

/-- Embedding of `ProductivityMetrics.collaboration_metrics` (metrics.py lines 412-443). -/
def collaboration_metrics (prs : List PRRow) : Analysis CollabResult :=
  if prs.isEmpty then Analysis.errorDict "No PR data available"
  else
    let all_reviewers := (prs.map (fun pr => pr.reviewers)).flatten
    let reviewer_counts := valueCounts all_reviewers
    Analysis.metrics
      { total_reviewers := reviewer_counts.length,
        most_active_reviewers := reviewer_counts.take 5,
        collaboration_pairs := (collabPairs prs).dedup.length,
        avg_reviewers_per_pr :=
          pyRound (meanQ (prs.map (fun pr => (pr.reviewers.length : ℚ)))) 2 }

/-! ## Collector extraction (`GitHubCollector._extract_pr_data`) -/

/-- The attributes of a PyGithub `PullRequest` object that
`_extract_pr_data` reads. -/
structure RawGitHubPR where
  id : ℤ
  number : ℤ
  title : String
  state : String
  created_at : Option ℤ
  updated_at : Option ℤ
  closed_at : Option ℤ
  merged_at : Option ℤ
  merged : Bool
  user : Option String
  assignees : List String
  requested_reviewers : List String
  labels : List String
  additions : ℤ
  deletions : ℤ
  changed_files : ℤ
  commits : List String
  review_comments : ℤ
  comments : ℤ
  html_url : String
deriving DecidableEq

/-- Embedding of `GitHubCollector._extract_pr_data` (collectors.py lines 94-132). -/
def extract_pr_data (pr : RawGitHubPR) : PRRow :=
  let cycle_time : Option ℚ :=
    match pr.closed_at, pr.created_at with
    | some cl, some cr => some (((cl - cr : ℤ) : ℚ) / 3600)
    | _, _ => none
  { id := pr.id, number := pr.number, title := pr.title, state := pr.state,
    created_at := pr.created_at, updated_at := pr.updated_at,
    closed_at := pr.closed_at, merged_at := pr.merged_at, merged := pr.merged,
    author := pr.user, assignees := pr.assignees,
    reviewers := pr.requested_reviewers, labels := pr.labels,
    additions := pr.additions, deletions := pr.deletions,
    changed_files := pr.changed_files, commits_count := pr.commits.length,
    review_comments := pr.review_comments, issue_comments := pr.comments,
    total_comments := pr.review_comments + pr.comments,
    cycle_time_hours := cycle_time, url := pr.html_url }

/-- A PyGithub pull request with every attribute at a neutral value; concrete
records below override the fields they care about. -/
def baseRawPR : RawGitHubPR :=
  { id := 0, number := 0, title := "", state := "open", created_at := none,
    updated_at := none, closed_at := none, merged_at := none, merged := false,
    user := none, assignees := [], requested_reviewers := [], labels := [],
    additions := 0, deletions := 0, changed_files := 0, commits := [],
    review_comments := 0, comments := 0, html_url := "" }

/-! ## Datetime normalization (`_convert_datetime_columns`) -/

/-- A raw timestamp cell before conversion: a null, a value `pd.to_datetime`
can parse, or an unparseable string. -/
inductive RawCell where
  | null : RawCell
  | time : ℤ → RawCell
  | bad : String → RawCell
deriving DecidableEq

/-- The four datetime cells of one raw pull-request record. -/
structure RawPRRecord where
  created_at : RawCell
  updated_at : RawCell
  closed_at : RawCell
  merged_at : RawCell
deriving DecidableEq

/-- The datetime fields of a record after conversion. -/
structure ConvertedDates where
  created_at : Option ℤ
  updated_at : Option ℤ
  closed_at : Option ℤ
  merged_at : Option ℤ
deriving DecidableEq

/-- Parsing one cell: `pd.to_datetime` keeps nulls as `NaT` and raises on an
unparseable value (its default is `errors="raise"`). -/
def parseCell : RawCell → Except String (Option ℤ)
  | RawCell.null => Except.ok none
  | RawCell.time t => Except.ok (some t)
  | RawCell.bad s => Except.error s

/-- Embedding of `pd.to_datetime` over one column: the whole column conversion raises as
soon as any cell is unparseable. -/
def toDatetimeCol : List RawCell → Except String (List (Option ℤ))
  | [] => Except.ok []
  | c :: cs => do
      let v ← parseCell c
      let vs ← toDatetimeCol cs
      Except.ok (v :: vs)

/-- Embedding of `PRMetrics._convert_datetime_columns` (metrics.py lines 228-233): each of
the four datetime columns is converted in place with `pd.to_datetime`; the
first column containing an unparseable cell aborts the whole batch. -/
def convert_datetime_columns (rows : List RawPRRecord) :
    Except String (List ConvertedDates) := do
  let created ← toDatetimeCol (rows.map (fun r => r.created_at))
  let updated ← toDatetimeCol (rows.map (fun r => r.updated_at))
  let closed ← toDatetimeCol (rows.map (fun r => r.closed_at))
  let merged ← toDatetimeCol (rows.map (fun r => r.merged_at))
  Except.ok ((created.zip (updated.zip (closed.zip merged))).map
    (fun x => { created_at := x.1, updated_at := x.2.1,
                closed_at := x.2.2.1, merged_at := x.2.2.2 }))

/-- Total parse used to state what a fully parseable batch converts to. -/
def parsedCell : RawCell → Option ℤ
  | RawCell.null => none
  | RawCell.time t => some t
  | RawCell.bad _ => none

/-- Whether a raw cell is parseable (not an unparseable string). -/
def cellOk : RawCell → Bool
  | RawCell.bad _ => false
  | _ => true


/-! ## Arithmetic facts about the embedded primitives -/

theorem floor_le_halfEven (x : ℚ) : ⌊x⌋ ≤ halfEven x := by
  unfold halfEven; split_ifs <;> omega

theorem halfEven_le_floor_add_one (x : ℚ) : halfEven x ≤ ⌊x⌋ + 1 := by
  unfold halfEven; split_ifs <;> omega

theorem halfEven_mono {x y : ℚ} (h : x ≤ y) : halfEven x ≤ halfEven y := by
  rcases lt_or_le ⌊x⌋ ⌊y⌋ with hf | hf
  · have h1 := halfEven_le_floor_add_one x
    have h2 := floor_le_halfEven y
    omega
  · have hfe : ⌊x⌋ = ⌊y⌋ := le_antisymm (Int.floor_le_floor h) hf
    have hr : x - ((⌊y⌋ : ℤ) : ℚ) ≤ y - ((⌊y⌋ : ℤ) : ℚ) := by linarith
    unfold halfEven
    rw [hfe]
    split_ifs <;> first | omega | (exfalso; linarith)

theorem abs_halfEven_sub (x : ℚ) : |((halfEven x : ℤ) : ℚ) - x| ≤ 1/2 := by
  have h1 : ((⌊x⌋ : ℤ) : ℚ) ≤ x := Int.floor_le x
  have h2 : x < ((⌊x⌋ : ℤ) : ℚ) + 1 := Int.lt_floor_add_one x
  unfold halfEven
  split_ifs <;> rw [abs_le] <;> constructor <;> push_cast <;> linarith

theorem pyRound_mono {x y : ℚ} (n : ℕ) (h : x ≤ y) : pyRound x n ≤ pyRound y n := by
  have h10 : (0:ℚ) < 10 ^ n := by positivity
  have hm : ((halfEven (x * 10 ^ n) : ℤ) : ℚ) ≤ ((halfEven (y * 10 ^ n) : ℤ) : ℚ) := by
    exact_mod_cast halfEven_mono (mul_le_mul_of_nonneg_right h (le_of_lt h10))
  unfold pyRound
  gcongr

theorem abs_pyRound_sub (x : ℚ) (n : ℕ) : |pyRound x n - x| ≤ 1 / (2 * 10 ^ n) := by
  have h10 : (0:ℚ) < 10 ^ n := by positivity
  have key : pyRound x n - x
      = (((halfEven (x * 10 ^ n) : ℤ) : ℚ) - x * 10 ^ n) / 10 ^ n := by
    unfold pyRound; field_simp; ring
  rw [key, abs_div, abs_of_pos h10, div_le_div_iff₀ h10 (by positivity)]
  have hb := abs_halfEven_sub (x * 10 ^ n)
  nlinarith [abs_nonneg (((halfEven (x * 10 ^ n) : ℤ) : ℚ) - x * 10 ^ n)]

theorem pyRound_zero (n : ℕ) : pyRound 0 n = 0 := by
  norm_num [pyRound, halfEven]

theorem length_mul_le_sum (l : List ℚ) (m : ℚ) (h : ∀ x ∈ l, m ≤ x) :
    (l.length : ℚ) * m ≤ l.sum := by
  induction l with
  | nil => simp
  | cons a t ih =>
    have ha := h a (List.mem_cons_self a t)
    have ht := ih (fun x hx => h x (List.mem_cons_of_mem a hx))
    simp only [List.length_cons, List.sum_cons]
    push_cast
    linarith

theorem sum_le_length_mul (l : List ℚ) (M : ℚ) (h : ∀ x ∈ l, x ≤ M) :
    l.sum ≤ (l.length : ℚ) * M := by
  induction l with
  | nil => simp
  | cons a t ih =>
    have ha := h a (List.mem_cons_self a t)
    have ht := ih (fun x hx => h x (List.mem_cons_of_mem a hx))
    simp only [List.length_cons, List.sum_cons]
    push_cast
    linarith

theorem le_meanQ (l : List ℚ) (m : ℚ) (hne : l ≠ []) (h : ∀ x ∈ l, m ≤ x) :
    m ≤ meanQ l := by
  have hl : (0:ℚ) < (l.length : ℚ) := by
    have := List.length_pos.mpr hne
    exact_mod_cast this
  unfold meanQ
  rw [le_div_iff₀ hl]
  have := length_mul_le_sum l m h
  linarith

theorem meanQ_le (l : List ℚ) (M : ℚ) (hne : l ≠ []) (h : ∀ x ∈ l, x ≤ M) :
    meanQ l ≤ M := by
  have hl : (0:ℚ) < (l.length : ℚ) := by
    have := List.length_pos.mpr hne
    exact_mod_cast this
  unfold meanQ
  rw [div_le_iff₀ hl]
  have := sum_le_length_mul l M h
  linarith

theorem sorted_getD_mono (s : List ℚ) (hs : s.Sorted (· ≤ ·)) {i j : ℕ}
    (hij : i ≤ j) (hj : j < s.length) : s.getD i 0 ≤ s.getD j 0 := by
  have hi : i < s.length := lt_of_le_of_lt hij hj
  rw [List.getD_eq_getElem s 0 hi, List.getD_eq_getElem s 0 hj]
  have := hs.rel_get_of_le (a := ⟨i, hi⟩) (b := ⟨j, hj⟩) (Fin.mk_le_mk.mpr hij)
  simpa [List.get_eq_getElem] using this

theorem getD_succ_sub_nonneg (s : List ℚ) (hs : s.Sorted (· ≤ ·)) {i : ℕ}
    (_hi : i < s.length) : 0 ≤ s.getD (i + 1) (s.getD i 0) - s.getD i 0 := by
  rcases lt_or_le (i + 1) s.length with hin | hout
  · have h1 := sorted_getD_mono s hs (Nat.le_succ i) hin
    have h2 : s.getD (i + 1) (s.getD i 0) = s.getD (i + 1) 0 := by
      rw [List.getD_eq_getElem s _ hin, List.getD_eq_getElem s 0 hin]
    rw [h2]
    linarith
  · rw [List.getD_eq_default s _ hout]
    simp

theorem floorPos_lt_length (s : List ℚ) (hne : s ≠ []) {p : ℚ} (_h0 : 0 ≤ p)
    (h1 : p ≤ (s.length : ℚ) - 1) : (⌊p⌋).toNat < s.length := by
  have hl : 1 ≤ s.length := List.length_pos.mpr hne
  have hq : ((⌊p⌋ : ℤ) : ℚ) ≤ (s.length : ℚ) - 1 := le_trans (Int.floor_le p) h1
  have h2 : ⌊p⌋ ≤ (s.length : ℤ) - 1 := by exact_mod_cast hq
  omega

theorem interpAt_ge (s : List ℚ) (hs : s.Sorted (· ≤ ·)) (hne : s ≠ []) {p : ℚ}
    (h0 : 0 ≤ p) (h1 : p ≤ (s.length : ℚ) - 1) :
    s.getD (⌊p⌋).toNat 0 ≤ interpAt s p := by
  set i := (⌊p⌋).toNat with hidef
  have hfl : (0:ℤ) ≤ ⌊p⌋ := Int.floor_nonneg.mpr h0
  have hiq : (i : ℚ) = ((⌊p⌋ : ℤ) : ℚ) := by
    rw [hidef]; exact_mod_cast congrArg (fun z : ℤ => (z : ℚ)) (Int.toNat_of_nonneg hfl)
  have hfle : (i : ℚ) ≤ p := by rw [hiq]; exact Int.floor_le p
  have hlt : i < s.length := floorPos_lt_length s hne h0 h1
  have hd := getD_succ_sub_nonneg s hs hlt
  have key : interpAt s p
      = s.getD i 0 + (p - (i : ℚ)) * (s.getD (i + 1) (s.getD i 0) - s.getD i 0) := rfl
  rw [key]
  nlinarith [mul_nonneg (sub_nonneg.mpr hfle) hd]

theorem interpAt_le (s : List ℚ) (hs : s.Sorted (· ≤ ·)) (hne : s ≠ []) {p : ℚ}
    (h0 : 0 ≤ p) (h1 : p ≤ (s.length : ℚ) - 1) :
    interpAt s p ≤ s.getD ((⌊p⌋).toNat + 1) (s.getD (⌊p⌋).toNat 0) := by
  set i := (⌊p⌋).toNat with hidef
  have hfl : (0:ℤ) ≤ ⌊p⌋ := Int.floor_nonneg.mpr h0
  have hiq : (i : ℚ) = ((⌊p⌋ : ℤ) : ℚ) := by
    rw [hidef]; exact_mod_cast congrArg (fun z : ℤ => (z : ℚ)) (Int.toNat_of_nonneg hfl)
  have hf1 : p - (i : ℚ) ≤ 1 := by
    have := Int.lt_floor_add_one p
    rw [hiq]; linarith
  have hlt : i < s.length := floorPos_lt_length s hne h0 h1
  have hd := getD_succ_sub_nonneg s hs hlt
  have key : interpAt s p
      = s.getD i 0 + (p - (i : ℚ)) * (s.getD (i + 1) (s.getD i 0) - s.getD i 0) := rfl
  rw [key]
  nlinarith [mul_nonneg (sub_nonneg.mpr hf1) hd]

theorem interpAt_mono (s : List ℚ) (hs : s.Sorted (· ≤ ·)) (hne : s ≠ [])
    {p₁ p₂ : ℚ} (h0 : 0 ≤ p₁) (h12 : p₁ ≤ p₂) (h2 : p₂ ≤ (s.length : ℚ) - 1) :
    interpAt s p₁ ≤ interpAt s p₂ := by
  have h0B : 0 ≤ p₂ := le_trans h0 h12
  have h1A : p₁ ≤ (s.length : ℚ) - 1 := le_trans h12 h2
  set i₁ := (⌊p₁⌋).toNat with hi1
  set i₂ := (⌊p₂⌋).toNat with hi2
  have hm : i₁ ≤ i₂ := by
    have := Int.floor_le_floor h12
    omega
  rcases Nat.eq_or_lt_of_le hm with heq | hlt
  · have hfl : (0:ℤ) ≤ ⌊p₁⌋ := Int.floor_nonneg.mpr h0
    have hiq : (i₁ : ℚ) = ((⌊p₁⌋ : ℤ) : ℚ) := by
      rw [hi1]; exact_mod_cast congrArg (fun z : ℤ => (z : ℚ)) (Int.toNat_of_nonneg hfl)
    have hlt1 : i₁ < s.length := floorPos_lt_length s hne h0 h1A
    have hd := getD_succ_sub_nonneg s hs hlt1
    have key1 : interpAt s p₁
        = s.getD i₁ 0 + (p₁ - (i₁ : ℚ)) * (s.getD (i₁ + 1) (s.getD i₁ 0) - s.getD i₁ 0) := rfl
    have key2 : interpAt s p₂
        = s.getD i₂ 0 + (p₂ - (i₂ : ℚ)) * (s.getD (i₂ + 1) (s.getD i₂ 0) - s.getD i₂ 0) := rfl
    rw [key1, key2, ← heq]
    nlinarith [mul_le_mul_of_nonneg_right (show p₁ - (i₁ : ℚ) ≤ p₂ - (i₁ : ℚ) by linarith) hd]
  · have hlt2 : i₂ < s.length := floorPos_lt_length s hne h0B h2
    have hsucc : i₁ + 1 ≤ i₂ := hlt
    have hin : i₁ + 1 < s.length := lt_of_le_of_lt hsucc hlt2
    calc interpAt s p₁
        ≤ s.getD (i₁ + 1) (s.getD i₁ 0) := interpAt_le s hs hne h0 h1A
      _ = s.getD (i₁ + 1) 0 := by
          rw [List.getD_eq_getElem s _ hin, List.getD_eq_getElem s 0 hin]
      _ ≤ s.getD i₂ 0 := sorted_getD_mono s hs hsucc hlt2
      _ ≤ interpAt s p₂ := interpAt_ge s hs hne h0B h2

theorem seriesQuantile_mono (l : List ℚ) (hne : l ≠ []) {q₁ q₂ : ℚ}
    (h0 : 0 ≤ q₁) (h12 : q₁ ≤ q₂) (h1 : q₂ ≤ 1) :
    seriesQuantile l q₁ ≤ seriesQuantile l q₂ := by
  have hsort : (sortQ l).Sorted (· ≤ ·) := List.sorted_insertionSort _ l
  have hlen : (sortQ l).length = l.length := (List.perm_insertionSort _ l).length_eq
  have hne' : sortQ l ≠ [] := by
    intro hcon
    apply hne
    rw [← List.length_eq_zero, ← hlen, hcon, List.length_nil]
  have hl1 : (1:ℚ) ≤ (l.length : ℚ) := by
    have := List.length_pos.mpr hne
    exact_mod_cast this
  unfold seriesQuantile
  apply interpAt_mono (sortQ l) hsort hne'
  · exact mul_nonneg h0 (by linarith)
  · exact mul_le_mul_of_nonneg_right h12 (by linarith)
  · rw [hlen]
    nlinarith [mul_nonneg (by linarith : (0:ℚ) ≤ 1 - q₂)
      (by linarith : (0:ℚ) ≤ (l.length : ℚ) - 1)]

theorem mean_between (l : List ℚ) (hne : l ≠ []) {m M : ℚ}
    (hlow : ∀ x ∈ l, m ≤ x) (hhigh : ∀ x ∈ l, x ≤ M) :
    m ≤ meanQ l ∧ meanQ l ≤ M :=
  ⟨le_meanQ l m hne hlow, meanQ_le l M hne hhigh⟩

theorem leadTimes_ne_nil {prs : List PRRow} (h : mergedPRs prs ≠ []) :
    leadTimes prs ≠ [] := by
  cases hm : mergedPRs prs with
  | nil => exact absurd hm h
  | cons a t =>
    have ha : a ∈ mergedPRs prs := by rw [hm]; exact List.mem_cons_self a t
    have hfilt := (List.mem_filter.mp ha).2
    have hsome : a.cycle_time_hours.isSome = true := by
      cases hcy : a.cycle_time_hours with
      | none => rw [hcy] at hfilt; simp at hfilt
      | some v => rfl
    obtain ⟨v, hv⟩ := Option.isSome_iff_exists.mp hsome
    unfold leadTimes
    rw [hm, List.filterMap_cons, hv]
    simp

theorem merge_counts_partition (prs : List PRRow)
    (hstate : ∀ pr ∈ prs, pr.state = "open" ∨ pr.state = "closed")
    (hmerged : ∀ pr ∈ prs, pr.merged = true → pr.state = "closed") :
    (prs.filter (fun pr => pr.merged)).length
      + (prs.filter (fun pr => pr.state == "closed" && !pr.merged)).length
      + (prs.filter (fun pr => pr.state == "open")).length
      = prs.length := by
  induction prs with
  | nil => simp
  | cons a t ih =>
    have hstate' : ∀ pr ∈ t, pr.state = "open" ∨ pr.state = "closed" :=
      fun pr hp => hstate pr (List.mem_cons_of_mem a hp)
    have hmerged' : ∀ pr ∈ t, pr.merged = true → pr.state = "closed" :=
      fun pr hp => hmerged pr (List.mem_cons_of_mem a hp)
    have iht := ih hstate' hmerged'
    cases hb : a.merged with
    | true =>
      have hc : a.state = "closed" := hmerged a (List.mem_cons_self a t) hb
      simp [List.filter_cons, hb, hc]; omega
    | false =>
      rcases hstate a (List.mem_cons_self a t) with ho | hc
      · simp [List.filter_cons, hb, ho]; omega
      · simp [List.filter_cons, hb, hc]; omega

theorem toDatetimeCol_cons (c : RawCell) (cs : List RawCell) :
    toDatetimeCol (c :: cs) =
      (parseCell c).bind fun v => (toDatetimeCol cs).bind fun vs => Except.ok (v :: vs) :=
  rfl

theorem toDatetimeCol_error {cells : List RawCell}
    (h : ∃ c ∈ cells, ∃ s, c = RawCell.bad s) :
    ∃ e, toDatetimeCol cells = Except.error e := by
  induction cells with
  | nil => simp at h
  | cons c cs ih =>
    rcases h with ⟨c', hc', s, hs⟩
    cases hcase : c with
    | bad s2 => exact ⟨s2, by rw [toDatetimeCol_cons]; rfl⟩
    | null =>
      rcases List.mem_cons.mp hc' with rfl | hmem
      · rw [hcase] at hs; cases hs
      · obtain ⟨e, he⟩ := ih ⟨c', hmem, s, hs⟩
        exact ⟨e, by rw [toDatetimeCol_cons, he]; rfl⟩
    | time t =>
      rcases List.mem_cons.mp hc' with rfl | hmem
      · rw [hcase] at hs; cases hs
      · obtain ⟨e, he⟩ := ih ⟨c', hmem, s, hs⟩
        exact ⟨e, by rw [toDatetimeCol_cons, he]; rfl⟩

theorem toDatetimeCol_ok {cells : List RawCell} (h : ∀ c ∈ cells, cellOk c = true) :
    toDatetimeCol cells = Except.ok (cells.map parsedCell) := by
  induction cells with
  | nil => rfl
  | cons c cs ih =>
    have hc := h c (List.mem_cons_self c cs)
    have ihs := ih (fun x hx => h x (List.mem_cons_of_mem c hx))
    rw [toDatetimeCol_cons, ihs]
    cases c with
    | null => rfl
    | time t => rfl
    | bad s => simp [cellOk] at hc

/-! ## Claims -/

/-- C1: the spec says `mean_time_to_recovery` and `change_failure_rate` never
raise and return the empty-result shape (`total_incidents = 0`) whenever no
closed bug/incident issue exists — in particular when the issue rows carry no
bug/incident flag.  On a non-empty issue table whose rows lack the flags (the
shape every collector in the repository produces) both raise `KeyError`
instead of returning. -/
theorem C1_mttr_raises_keyerror :
    mean_time_to_recovery
        [{ state := "closed", created_at := some 0, closed_at := some 3600,
           is_bug := none, is_incident := none }]
      = Except.error "KeyError: is_bug"
    ∧ change_failure_rate []
        [{ state := "closed", created_at := some 0, closed_at := some 3600,
           is_bug := none, is_incident := none }] 86400 30
      = Except.error "KeyError: is_bug" :=
  ⟨rfl, rfl⟩

/-- C2: with 0 deployments and exactly 3 merged PRs of cycle times 10, 20 and
30 hours, `lead_time_for_changes` reports mean 20.0, median 20.0, linearly
interpolated p95 29.0 and 3 merged PRs, and `deployment_frequency(30)` is all
zero. -/
theorem C2_lead_time_scenario (now : ℤ) :
    lead_time_for_changes
        [{ basePR with merged := true, cycle_time_hours := some 10 },
         { basePR with merged := true, cycle_time_hours := some 20 },
         { basePR with merged := true, cycle_time_hours := some 30 }]
      = { mean_lead_time_hours := 20, median_lead_time_hours := 20,
          p95_lead_time_hours := 29, total_merged_prs := 3 }
    ∧ deployment_frequency [] now 30
      = { deployments_per_day := 0, deployments_per_week := 0,
          total_deployments := 0, period_days := 30 } := by
  constructor
  · norm_num [lead_time_for_changes, mergedPRs, basePR, meanQ, seriesMedian,
      seriesQuantile, sortQ, interpAt, pyRound, halfEven, List.insertionSort,
      List.orderedInsert, List.filter_cons, List.filterMap_cons, LTResult.mk.injEq]
  · rfl

/-- C3 counterexample: on 3 PRs (one merged, one closed-unmerged, one open)
`merge_analysis` returns the 3-decimal rounded rates 0.333 and 0.333, and
0.333 + 0.333 + 1/3 ≠ 1, so the claimed exact identity
`merge_rate + rejection_rate + open_prs/total_prs == 1` fails on the returned
values. -/
theorem C3_merge_rates_cex :
    merge_analysis
        [{ basePR with state := "closed", merged := true },
         { basePR with state := "closed", merged := false },
         { basePR with state := "open", merged := false }]
      = Analysis.metrics
          { total_prs := 3, merged_prs := 1, closed_unmerged_prs := 1, open_prs := 1,
            merge_rate := 333/1000, rejection_rate := 333/1000 }
    ∧ ¬((333:ℚ)/1000 + 333/1000 + (1:ℚ)/3 = 1) := by
  constructor
  · norm_num [merge_analysis, basePR, pyRound, halfEven, List.filter_cons,
      MergeResult.mk.injEq, Analysis.metrics.injEq,
      show ("closed" : String) ≠ "open" by decide,
      show ("open" : String) ≠ "closed" by decide]
  · norm_num

/-- C3 amended: for every non-empty PR table whose states are `open`/`closed`
and where a merged PR is closed, the counts partition the table
(`merged + closed_unmerged + open = total`), so the pre-rounding rates sum
exactly to 1 and the returned 3-decimal rounded rates satisfy the identity up
to 1/1000. -/
theorem C3_merge_rates_amended (prs : List PRRow) (hne : prs ≠ [])
    (hstate : ∀ pr ∈ prs, pr.state = "open" ∨ pr.state = "closed")
    (hmerged : ∀ pr ∈ prs, pr.merged = true → pr.state = "closed") :
    ∃ r, merge_analysis prs = Analysis.metrics r
      ∧ r.merged_prs + r.closed_unmerged_prs + r.open_prs = r.total_prs
      ∧ |r.merge_rate + r.rejection_rate + (r.open_prs : ℚ) / (r.total_prs : ℚ) - 1|
          ≤ 1/1000 := by
  have hlen : 0 < prs.length := List.length_pos.mpr hne
  have hemp : ¬(prs.isEmpty = true) := by simp [List.isEmpty_iff, hne]
  have hpart : (prs.filter (fun pr => pr.merged)).length
      + (prs.filter (fun pr => pr.state == "closed" && pr.merged == false)).length
      + (prs.filter (fun pr => pr.state == "open")).length = prs.length := by
    have hfun : ∀ pr ∈ prs,
        (pr.state == "closed" && pr.merged == false)
          = (pr.state == "closed" && !pr.merged) := by
      intro pr _
      cases pr.merged <;> simp
    rw [List.filter_congr hfun]
    exact merge_counts_partition prs hstate hmerged
  refine ⟨{ total_prs := prs.length,
            merged_prs := (prs.filter (fun pr => pr.merged)).length,
            closed_unmerged_prs :=
              (prs.filter (fun pr => pr.state == "closed" && pr.merged == false)).length,
            open_prs := (prs.filter (fun pr => pr.state == "open")).length,
            merge_rate := if prs.length > 0 then
              pyRound (((prs.filter (fun pr => pr.merged)).length : ℚ)
                / (prs.length : ℚ)) 3 else 0,
            rejection_rate := if prs.length > 0 then
              pyRound (((prs.filter
                  (fun pr => pr.state == "closed" && pr.merged == false)).length : ℚ)
                / (prs.length : ℚ)) 3 else 0 }, ?_, ?_, ?_⟩
  · unfold merge_analysis
    rw [if_neg hemp]
  · exact hpart
  · have hn : (0:ℚ) < (prs.length : ℚ) := by exact_mod_cast hlen
    set mm := (prs.filter (fun pr => pr.merged)).length with hmm
    set cc := (prs.filter (fun pr => pr.state == "closed" && pr.merged == false)).length
      with hcc
    set oo := (prs.filter (fun pr => pr.state == "open")).length with hoo
    have hsum : (mm : ℚ) / (prs.length : ℚ) + (cc : ℚ) / (prs.length : ℚ)
        + (oo : ℚ) / (prs.length : ℚ) = 1 := by
      field_simp
      exact_mod_cast hpart
    have h1 := abs_pyRound_sub ((mm : ℚ) / (prs.length : ℚ)) 3
    have h2 := abs_pyRound_sub ((cc : ℚ) / (prs.length : ℚ)) 3
    norm_num at h1 h2
    rw [abs_le] at h1 h2
    dsimp only
    simp only [if_pos hlen]
    rw [abs_le]
    constructor <;> linarith

/-- C3 witness: the amended statement holds at a concrete 2-PR table. -/
theorem C3_merge_rates_amended_witness :
    ∃ r, merge_analysis [{ basePR with state := "closed", merged := true }, basePR]
        = Analysis.metrics r
      ∧ r.merged_prs + r.closed_unmerged_prs + r.open_prs = r.total_prs
      ∧ |r.merge_rate + r.rejection_rate + (r.open_prs : ℚ) / (r.total_prs : ℚ) - 1|
          ≤ 1/1000 :=
  C3_merge_rates_amended _ (by simp) (by simp [basePR]) (by simp [basePR])

/-- C4: running the full metric computation twice on identical frozen inputs
(and an identical clock for the period filters) yields identical values in
every field except the `calculated_at` stamp, which is the only place the
run timestamp enters. -/
theorem C4_two_run_determinism (deployments : List DeploymentRow) (prs : List PRRow)
    (issues : List IssueRow) (commits : List CommitRow) (now period_days : ℤ)
    (c₁ c₂ : String) :
    (get_all_dora_metrics deployments prs issues now period_days c₁).map eraseDoraStamp
      = (get_all_dora_metrics deployments prs issues now period_days c₂).map eraseDoraStamp
    ∧ eraseDevStamp (developer_activity commits prs now period_days c₁)
      = eraseDevStamp (developer_activity commits prs now period_days c₂)
    ∧ cycle_time_analysis prs = cycle_time_analysis prs
    ∧ review_analysis prs = review_analysis prs
    ∧ merge_analysis prs = merge_analysis prs
    ∧ code_quality_trends prs = code_quality_trends prs
    ∧ collaboration_metrics prs = collaboration_metrics prs := by
  refine ⟨?_, rfl, rfl, rfl, rfl, rfl, rfl⟩
  unfold get_all_dora_metrics
  cases mean_time_to_recovery issues with
  | error e => rfl
  | ok mttr =>
    cases change_failure_rate deployments issues now period_days with
    | error e => rfl
    | ok cfr => rfl

/-- C6: for every positive period, if no deployment timestamp falls in the
window (in particular on the empty table) then `deployment_frequency` returns
zero for the count and both rates, and it is a total function (it cannot
raise). -/
theorem C6_zero_deployment_frequency (deployments : List DeploymentRow)
    (now period_days : ℤ) (hp : 0 < period_days)
    (hnone : ∀ d ∈ deployments, inPeriod now period_days d.created_at = false) :
    deployment_frequency deployments now period_days
      = { deployments_per_day := 0, deployments_per_week := 0,
          total_deployments := 0, period_days := period_days } := by
  unfold deployment_frequency
  by_cases hd : deployments.isEmpty = true
  · rw [if_pos hd]
  · rw [if_neg hd]
    have hf : deployments.filter (fun d => inPeriod now period_days d.created_at) = [] := by
      apply List.filter_eq_nil_iff.mpr
      intro d hdm
      simp [hnone d hdm]
    rw [hf]
    simp [hp, pyRound_zero]

/-- C6 witness: a table with one deployment far outside the window. -/
theorem C6_zero_deployment_frequency_witness :
    deployment_frequency [{ created_at := some 999999 }] 0 30
      = { deployments_per_day := 0, deployments_per_week := 0,
          total_deployments := 0, period_days := 30 } :=
  C6_zero_deployment_frequency [{ created_at := some 999999 }] 0 30 (by decide)
    (fun d hd => by rcases List.mem_singleton.mp hd with rfl; rfl)

/-- C7 counterexample: one deployment inside a 3-day window.  The returned
`deployments_per_day` is `round(1/3, 2) = 0.33 ≠ 1/3`, and the returned
`deployments_per_week` is `round(7/3, 2) = 2.33 ≠ 0.33 × 7`, so both claimed
exact identities fail on the returned (rounded) values. -/
theorem C7_rate_rounding_cex :
    deployment_frequency [{ created_at := some 0 }] 0 3
      = { deployments_per_day := 33/100, deployments_per_week := 233/100,
          total_deployments := 1, period_days := 3 }
    ∧ ¬((33:ℚ)/100 = (1:ℚ)/3)
    ∧ ¬((233:ℚ)/100 = (33:ℚ)/100 * 7) := by
  refine ⟨?_, by norm_num, by norm_num⟩
  norm_num [deployment_frequency, inPeriod, pyRound, halfEven, List.filter_cons,
    DFResult.mk.injEq]

/-- C7 amended: for every deployment table and positive period, the returned
count is the number of deployments in the window, the returned rates are the
2-decimal roundings of `total/period` and `total/period × 7`, and each rate
is within 1/200 of its unrounded value. -/
theorem C7_rates_amended (deployments : List DeploymentRow) (now period_days : ℤ)
    (hp : 0 < period_days) :
    (deployment_frequency deployments now period_days).total_deployments
        = (deployments.filter (fun d => inPeriod now period_days d.created_at)).length
    ∧ (deployment_frequency deployments now period_days).deployments_per_day
        = pyRound (((deployment_frequency deployments now period_days).total_deployments : ℚ)
            / (period_days : ℚ)) 2
    ∧ (deployment_frequency deployments now period_days).deployments_per_week
        = pyRound (((deployment_frequency deployments now period_days).total_deployments : ℚ)
            / (period_days : ℚ) * 7) 2
    ∧ |(deployment_frequency deployments now period_days).deployments_per_day
        - ((deployment_frequency deployments now period_days).total_deployments : ℚ)
            / (period_days : ℚ)| ≤ 1/200
    ∧ |(deployment_frequency deployments now period_days).deployments_per_week
        - ((deployment_frequency deployments now period_days).total_deployments : ℚ)
            / (period_days : ℚ) * 7| ≤ 1/200 := by
  by_cases hd : deployments.isEmpty = true
  · have hdeq : deployments = [] := List.isEmpty_iff.mp hd
    subst hdeq
    norm_num [deployment_frequency, pyRound_zero]
  · have hb1 := abs_pyRound_sub
      (((deployments.filter (fun d => inPeriod now period_days d.created_at)).length : ℚ)
        / (period_days : ℚ)) 2
    have hb2 := abs_pyRound_sub
      (((deployments.filter (fun d => inPeriod now period_days d.created_at)).length : ℚ)
        / (period_days : ℚ) * 7) 2
    norm_num at hb1 hb2
    simp only [deployment_frequency, if_neg hd, if_pos hp, eq_self_iff_true, true_and]
    exact ⟨hb1, hb2⟩

/-- C7 witness: the amended statement at one deployment over a 3-day period. -/
theorem C7_rates_amended_witness :
    (deployment_frequency [{ created_at := some 0 }] 0 3).total_deployments
        = ([({ created_at := some 0 } : DeploymentRow)].filter
            (fun d => inPeriod 0 3 d.created_at)).length
    ∧ (deployment_frequency [{ created_at := some 0 }] 0 3).deployments_per_day
        = pyRound (((deployment_frequency [{ created_at := some 0 }] 0 3).total_deployments : ℚ)
            / ((3:ℤ) : ℚ)) 2
    ∧ (deployment_frequency [{ created_at := some 0 }] 0 3).deployments_per_week
        = pyRound (((deployment_frequency [{ created_at := some 0 }] 0 3).total_deployments : ℚ)
            / ((3:ℤ) : ℚ) * 7) 2
    ∧ |(deployment_frequency [{ created_at := some 0 }] 0 3).deployments_per_day
        - ((deployment_frequency [{ created_at := some 0 }] 0 3).total_deployments : ℚ)
            / ((3:ℤ) : ℚ)| ≤ 1/200
    ∧ |(deployment_frequency [{ created_at := some 0 }] 0 3).deployments_per_week
        - ((deployment_frequency [{ created_at := some 0 }] 0 3).total_deployments : ℚ)
            / ((3:ℤ) : ℚ) * 7| ≤ 1/200 :=
  C7_rates_amended [{ created_at := some 0 }] 0 3 (by decide)

/-- C8: every pair built by the `collaboration_metrics` loop has a reviewer
different from the author (self-review pairs are skipped), and the reported
`collaboration_pairs` value is the number of distinct pairs in that list. -/
theorem C8_no_self_review_pairs (prs : List PRRow) (r : CollabResult)
    (hr : collaboration_metrics prs = Analysis.metrics r) :
    (∀ p ∈ collabPairs prs, p.1 ≠ some p.2)
    ∧ r.collaboration_pairs = (collabPairs prs).toFinset.card := by
  constructor
  · intro p hp
    unfold collabPairs at hp
    rw [List.mem_flatten] at hp
    obtain ⟨l, hl, hpl⟩ := hp
    rw [List.mem_map] at hl
    obtain ⟨pr, _hpr, rfl⟩ := hl
    rw [List.mem_map] at hpl
    obtain ⟨rev, hrev, rfl⟩ := hpl
    have hne := (List.mem_filter.mp hrev).2
    intro hcon
    dsimp only at hcon
    rw [hcon] at hne
    simp at hne
  · have hne : prs ≠ [] := by
      intro hcon
      rw [hcon] at hr
      simp [collaboration_metrics] at hr
    unfold collaboration_metrics at hr
    rw [if_neg (by simp [List.isEmpty_iff, hne])] at hr
    injection hr with h
    rw [← h]
    exact (List.card_toFinset (collabPairs prs)).symm

/-- C8 witness: one PR authored by alice with reviewers bob and alice; the
self pair is skipped and exactly one distinct pair is counted. -/
theorem C8_no_self_review_pairs_witness :
    ((some "alice" : Option String) ≠ some "bob")
    ∧ (1 : ℕ) = (collabPairs
        [{ basePR with author := some "alice", reviewers := ["bob", "alice"] }]).toFinset.card := by
  have h := C8_no_self_review_pairs
    [{ basePR with author := some "alice", reviewers := ["bob", "alice"] }]
    { total_reviewers := 2, most_active_reviewers := [("bob", 1), ("alice", 1)],
      collaboration_pairs := 1, avg_reviewers_per_pr := pyRound 2 2 }
    (by simp [collaboration_metrics, valueCounts, collabPairs, basePR, meanQ,
      List.insertionSort, List.orderedInsert])
  exact ⟨h.1 (some "alice", "bob") (by simp [collabPairs, basePR]), h.2⟩

/-- C9 counterexample: a single merged PR with cycle time 10.004 hours.  The
returned mean is `round(10.004, 2) = 10.0`, strictly below the minimum lead
time 10.004, so the claimed `mean ≥ min` fails on the returned statistic. -/
theorem C9_rounded_mean_cex :
    lead_time_for_changes
        [{ basePR with merged := true, cycle_time_hours := some (2501/250) }]
      = { mean_lead_time_hours := 10, median_lead_time_hours := 10,
          p95_lead_time_hours := 10, total_merged_prs := 1 }
    ∧ ¬((2501:ℚ)/250 ≤ 10) := by
  constructor
  · norm_num [lead_time_for_changes, mergedPRs, basePR, meanQ, seriesMedian,
      seriesQuantile, sortQ, interpAt, pyRound, halfEven, List.insertionSort,
      List.orderedInsert, List.filter_cons, List.filterMap_cons, LTResult.mk.injEq]
  · norm_num

/-- C9 amended: on every non-empty merged set the returned (rounded) median is
at most the returned (rounded) p95, and the returned mean lies within 1/200
(the 2-decimal rounding slack) of the interval spanned by any lower and upper
bound of the lead times; the unrounded mean lies in the interval itself. -/
theorem C9_lead_time_stats_amended (prs : List PRRow) (hm : mergedPRs prs ≠ [])
    (m M : ℚ) (hlow : ∀ x ∈ leadTimes prs, m ≤ x)
    (hhigh : ∀ x ∈ leadTimes prs, x ≤ M) :
    (lead_time_for_changes prs).median_lead_time_hours
        ≤ (lead_time_for_changes prs).p95_lead_time_hours
    ∧ m ≤ meanQ (leadTimes prs) ∧ meanQ (leadTimes prs) ≤ M
    ∧ m - 1/200 ≤ (lead_time_for_changes prs).mean_lead_time_hours
    ∧ (lead_time_for_changes prs).mean_lead_time_hours ≤ M + 1/200 := by
  have hne : prs ≠ [] := by
    intro hcon
    rw [hcon] at hm
    exact hm rfl
  have hlt : leadTimes prs ≠ [] := leadTimes_ne_nil hm
  have hkey : lead_time_for_changes prs
      = { mean_lead_time_hours := pyRound (meanQ (leadTimes prs)) 2,
          median_lead_time_hours := pyRound (seriesMedian (leadTimes prs)) 2,
          p95_lead_time_hours := pyRound (seriesQuantile (leadTimes prs) (19/20)) 2,
          total_merged_prs := (mergedPRs prs).length } := by
    simp only [lead_time_for_changes]
    rw [if_neg (by simp [List.isEmpty_iff, hne]), if_neg (by simp [List.isEmpty_iff, hm])]
    rfl
  have hmean := le_meanQ (leadTimes prs) m hlt hlow
  have hmean' := meanQ_le (leadTimes prs) M hlt hhigh
  have hb := abs_pyRound_sub (meanQ (leadTimes prs)) 2
  norm_num at hb
  rw [abs_le] at hb
  rw [hkey]
  refine ⟨?_, hmean, hmean', ?_, ?_⟩
  · apply pyRound_mono
    unfold seriesMedian
    exact seriesQuantile_mono (leadTimes prs) hlt (by norm_num) (by norm_num) (by norm_num)
  · dsimp only
    linarith
  · dsimp only
    linarith

/-- C9 witness: the amended statement at a single merged PR of cycle time 10. -/
theorem C9_lead_time_stats_amended_witness :
    (lead_time_for_changes [{ basePR with merged := true, cycle_time_hours := some 10 }]).median_lead_time_hours
        ≤ (lead_time_for_changes
            [{ basePR with merged := true, cycle_time_hours := some 10 }]).p95_lead_time_hours
    ∧ (10:ℚ) ≤ meanQ (leadTimes [{ basePR with merged := true, cycle_time_hours := some 10 }])
    ∧ meanQ (leadTimes [{ basePR with merged := true, cycle_time_hours := some 10 }]) ≤ 10
    ∧ (10:ℚ) - 1/200 ≤ (lead_time_for_changes
        [{ basePR with merged := true, cycle_time_hours := some 10 }]).mean_lead_time_hours
    ∧ (lead_time_for_changes
        [{ basePR with merged := true, cycle_time_hours := some 10 }]).mean_lead_time_hours
      ≤ (10:ℚ) + 1/200 :=
  C9_lead_time_stats_amended _ (by simp [mergedPRs, basePR]) 10 10
    (by intro x hx; simp [leadTimes, mergedPRs, basePR] at hx; simp [hx])
    (by intro x hx; simp [leadTimes, mergedPRs, basePR] at hx; simp [hx])

/-- C10 counterexample: three collector-built PRs whose review+issue comment
sums are 0, 0 and 1.  The reported `mean_total_comments` is
`round(1/3, 2) = 0.33`, which is not the mean `1/3` of the per-PR sums, so
the claimed exact equality fails (the invariant itself holds; only the
rounding breaks the equality). -/
theorem C10_total_comments_cex :
    review_analysis ([baseRawPR, baseRawPR,
        { baseRawPR with review_comments := 1 }].map extract_pr_data)
      = Analysis.metrics
          { mean_review_comments := 33/100, median_review_comments := 0,
            mean_total_comments := 33/100, median_total_comments := 0,
            mean_pr_size := 0, median_pr_size := 0,
            prs_with_no_reviews := 2, total_prs := 3 }
    ∧ meanQ ([baseRawPR, baseRawPR, { baseRawPR with review_comments := 1 }].map
        (fun raw => ((raw.review_comments + raw.comments : ℤ) : ℚ))) = 1/3
    ∧ ¬((33:ℚ)/100 = 1/3) := by
  refine ⟨?_, ?_, by norm_num⟩
  · norm_num [review_analysis, extract_pr_data, baseRawPR, meanQ, seriesMedian,
      seriesQuantile, sortQ, interpAt, pyRound, halfEven, List.insertionSort,
      List.orderedInsert, List.filter_cons, ReviewResult.mk.injEq,
      Analysis.metrics.injEq]
  · norm_num [meanQ, baseRawPR]

/-- C10 amended: every record produced by `_extract_pr_data` satisfies
`total_comments = review_comments + issue_comments`, and on collector output
the reported `mean_total_comments` equals the 2-decimal rounding of the mean
of the per-PR review+issue comment sums. -/
theorem C10_total_comments_amended :
    (∀ pr : RawGitHubPR,
        (extract_pr_data pr).total_comments
          = (extract_pr_data pr).review_comments + (extract_pr_data pr).issue_comments)
    ∧ ∀ raws : List RawGitHubPR, raws ≠ [] →
        ∀ r, review_analysis (raws.map extract_pr_data) = Analysis.metrics r →
          r.mean_total_comments
            = pyRound (meanQ (raws.map
                (fun raw => ((raw.review_comments + raw.comments : ℤ) : ℚ)))) 2 := by
  constructor
  · intro pr
    rfl
  · intro raws hne r hr
    have hne' : raws.map extract_pr_data ≠ [] := by
      intro hcon
      exact hne (List.map_eq_nil_iff.mp hcon)
    unfold review_analysis at hr
    rw [if_neg (by simp [List.isEmpty_iff, hne'])] at hr
    injection hr with h
    rw [← h]
    have hmap : (raws.map extract_pr_data).map (fun pr => (pr.total_comments : ℚ))
        = raws.map (fun raw => ((raw.review_comments + raw.comments : ℤ) : ℚ)) := by
      rw [List.map_map]
      rfl
    dsimp only
    rw [hmap]

/-- C10 witness: the amended statement at a single collector-built PR. -/
theorem C10_total_comments_amended_witness :
    (extract_pr_data baseRawPR).total_comments
      = (extract_pr_data baseRawPR).review_comments
        + (extract_pr_data baseRawPR).issue_comments
    ∧ (({ mean_review_comments := 0, median_review_comments := 0,
          mean_total_comments := 0, median_total_comments := 0,
          mean_pr_size := 0, median_pr_size := 0,
          prs_with_no_reviews := 1, total_prs := 1 } : ReviewResult)).mean_total_comments
        = pyRound (meanQ ([baseRawPR].map
            (fun raw => ((raw.review_comments + raw.comments : ℤ) : ℚ)))) 2 := by
  have h := C10_total_comments_amended
  exact ⟨h.1 baseRawPR,
    h.2 [baseRawPR] (by simp) _
      (by norm_num [review_analysis, extract_pr_data, baseRawPR, meanQ, seriesMedian,
        seriesQuantile, sortQ, interpAt, pyRound_zero, List.insertionSort,
        List.orderedInsert, List.filter_cons, ReviewResult.mk.injEq,
        Analysis.metrics.injEq])⟩

/-- Recombining the four converted columns row by row gives the pointwise
conversion of the batch. -/
theorem zip4_map_parsedCell (rows : List RawPRRecord) :
    (((rows.map (fun r => r.created_at)).map parsedCell).zip
      (((rows.map (fun r => r.updated_at)).map parsedCell).zip
        (((rows.map (fun r => r.closed_at)).map parsedCell).zip
          ((rows.map (fun r => r.merged_at)).map parsedCell)))).map
      (fun x => ({ created_at := x.1, updated_at := x.2.1,
                   closed_at := x.2.2.1, merged_at := x.2.2.2 } : ConvertedDates))
    = rows.map (fun r =>
        { created_at := parsedCell r.created_at,
          updated_at := parsedCell r.updated_at,
          closed_at := parsedCell r.closed_at,
          merged_at := parsedCell r.merged_at }) := by
  induction rows with
  | nil => rfl
  | cons a t ih =>
    simp only [List.map_cons, List.zip_cons_cons, ih]

/-- C5 counterexample: a 2-row batch whose first row has an unparseable
created timestamp.  The claim says the bad row is silently dropped and the
good row normalized; instead `pd.to_datetime` raises, so the whole batch
fails and no normalized output exists. -/
theorem C5_bad_timestamp_cex :
    convert_datetime_columns
        [{ created_at := RawCell.bad "not-a-date", updated_at := RawCell.null,
           closed_at := RawCell.null, merged_at := RawCell.null },
         { created_at := RawCell.time 3600, updated_at := RawCell.null,
           closed_at := RawCell.null, merged_at := RawCell.null }]
      = Except.error "not-a-date"
    ∧ ∀ out, convert_datetime_columns
        [{ created_at := RawCell.bad "not-a-date", updated_at := RawCell.null,
           closed_at := RawCell.null, merged_at := RawCell.null },
         { created_at := RawCell.time 3600, updated_at := RawCell.null,
           closed_at := RawCell.null, merged_at := RawCell.null }]
      ≠ Except.ok out := by
  constructor
  · rfl
  · intro out h
    rw [show convert_datetime_columns
        [{ created_at := RawCell.bad "not-a-date", updated_at := RawCell.null,
           closed_at := RawCell.null, merged_at := RawCell.null },
         { created_at := RawCell.time 3600, updated_at := RawCell.null,
           closed_at := RawCell.null, merged_at := RawCell.null }]
      = Except.error "not-a-date" from rfl] at h
    cases h

/-- C5 amended: a row with an unparseable created timestamp makes the whole
batch conversion raise (nothing is dropped or counted), while a batch whose
cells are all parseable or null is normalized with every row kept in order. -/
theorem C5_bad_timestamp_amended (rows : List RawPRRecord) :
    ((∃ r ∈ rows, ∃ s, r.created_at = RawCell.bad s) →
      ∃ e, convert_datetime_columns rows = Except.error e)
    ∧ ((∀ r ∈ rows, cellOk r.created_at = true ∧ cellOk r.updated_at = true
          ∧ cellOk r.closed_at = true ∧ cellOk r.merged_at = true) →
      convert_datetime_columns rows = Except.ok (rows.map (fun r =>
        { created_at := parsedCell r.created_at,
          updated_at := parsedCell r.updated_at,
          closed_at := parsedCell r.closed_at,
          merged_at := parsedCell r.merged_at }))) := by
  constructor
  · intro hbad
    obtain ⟨r, hrm, s, hs⟩ := hbad
    obtain ⟨e, he⟩ : ∃ e, toDatetimeCol (rows.map (fun r => r.created_at))
        = Except.error e :=
      toDatetimeCol_error ⟨r.created_at, List.mem_map_of_mem _ hrm, s, hs⟩
    refine ⟨e, ?_⟩
    unfold convert_datetime_columns
    rw [he]
    rfl
  · intro hok
    have h1 : toDatetimeCol (rows.map (fun r => r.created_at))
        = Except.ok ((rows.map (fun r => r.created_at)).map parsedCell) :=
      toDatetimeCol_ok (by
        intro c hc
        obtain ⟨r, hrm, rfl⟩ := List.mem_map.mp hc
        exact (hok r hrm).1)
    have h2 : toDatetimeCol (rows.map (fun r => r.updated_at))
        = Except.ok ((rows.map (fun r => r.updated_at)).map parsedCell) :=
      toDatetimeCol_ok (by
        intro c hc
        obtain ⟨r, hrm, rfl⟩ := List.mem_map.mp hc
        exact (hok r hrm).2.1)
    have h3 : toDatetimeCol (rows.map (fun r => r.closed_at))
        = Except.ok ((rows.map (fun r => r.closed_at)).map parsedCell) :=
      toDatetimeCol_ok (by
        intro c hc
        obtain ⟨r, hrm, rfl⟩ := List.mem_map.mp hc
        exact (hok r hrm).2.2.1)
    have h4 : toDatetimeCol (rows.map (fun r => r.merged_at))
        = Except.ok ((rows.map (fun r => r.merged_at)).map parsedCell) :=
      toDatetimeCol_ok (by
        intro c hc
        obtain ⟨r, hrm, rfl⟩ := List.mem_map.mp hc
        exact (hok r hrm).2.2.2)
    unfold convert_datetime_columns
    rw [h1, h2, h3, h4]
    show Except.ok _ = _
    rw [zip4_map_parsedCell rows]

/-- C5 witness: the amended statement at a concrete bad batch and a concrete
clean batch. -/
theorem C5_bad_timestamp_amended_witness :
    (∃ e, convert_datetime_columns
        [{ created_at := RawCell.bad "x", updated_at := RawCell.null,
           closed_at := RawCell.null, merged_at := RawCell.null }]
      = Except.error e)
    ∧ convert_datetime_columns
        [{ created_at := RawCell.time 0, updated_at := RawCell.null,
           closed_at := RawCell.null, merged_at := RawCell.null }]
      = Except.ok [{ created_at := some 0, updated_at := none,
                     closed_at := none, merged_at := none }] := by
  constructor
  · exact (C5_bad_timestamp_amended _).1
      ⟨{ created_at := RawCell.bad "x", updated_at := RawCell.null,
         closed_at := RawCell.null, merged_at := RawCell.null }, by simp, "x", rfl⟩
  · have h := (C5_bad_timestamp_amended
      [{ created_at := RawCell.time 0, updated_at := RawCell.null,
         closed_at := RawCell.null, merged_at := RawCell.null }]).2
      (by simp [cellOk])
    simpa [parsedCell] using h
